import Mathlib

/-!
Shallow embedding of the pyanglianwater authentication and session
lifecycle manager (src/pyanglianwater/auth.py, with api.py and const.py as
context).  Members of the repository that are imported by auth.py but whose
files are not under src/ (the exceptions module, the utils module, and the
newer const entries) are modelled from the spec where marked.

Conventions of the embedding:
* machine time is an integer timestamp (`now : Int`); `datetime.now()` at the
  moment of a call is the `now` argument;
* network I/O is an environment: `env k` is the response of the vendor to the k-th
  API HTTP request a dispatch issues; the PKCE flow takes a `FlowEnv` holding
  the responses of its four round trips;
* Python exceptions are the `PyError` type; a function that can raise returns
  an `Except PyError` outcome paired with the object state it leaves behind
  (Python exceptions do not roll back attribute mutations);
* the unbounded 401 retry recursion of `LegacyAuth.send_request` is indexed by
  `fuel` (the Python recursion limit): `fuel = 0` models hitting the limit.
-/

/-- JSON values as exchanged with the vendor API. -/
inductive JValue where
  | jnull
  | jbool (b : Bool)
  | jnum (n : Int)
  | jstr (s : String)
  | jarr (xs : List JValue)
  | jobj (fields : List (String × JValue))

/-- Python-level exceptions raised by the embedded code.  The last three
constructors embed the exception classes of the repository (ExpiredAccessTokenError,
ServiceUnavailableError, UnknownEndpointError from the exceptions module); the
others are Python builtins. -/
inductive PyError where
  | valueError (msg : String)
  | typeError
  | keyError (k : String)
  | indexError
  | attributeError
  | jsonDecodeError
  | recursionError
  | expiredAccessToken
  | serviceUnavailable
  | unknownEndpoint (detail : JValue)

/-- Association-list lookup, embedding Python dict key lookup. -/
def lookupStr {α : Type} : List (String × α) → String → Option α
  | [], _ => none
  | (k, v) :: rest, key => if k = key then some v else lookupStr rest key

/-- Python subscript `j[k]`: KeyError when the key is absent, TypeError when
the value is not a dict. -/
def jSub : JValue → String → Except PyError JValue
  | .jobj fs, k =>
    match lookupStr fs k with
    | some v => .ok v
    | none => .error (.keyError k)
  | _, _ => .error .typeError

/-- Python subscript `j[i]` on a list. -/
def jIdx : JValue → Nat → Except PyError JValue
  | .jarr xs, i =>
    match xs.get? i with
    | some v => .ok v
    | none => .error .indexError
  | _, _ => .error .typeError

/-- Python `int(x)`. -/
def pyInt : JValue → Except PyError Int
  | .jnum n => .ok n
  | .jbool b => .ok (if b then 1 else 0)
  | .jstr s =>
    match s.toInt? with
    | some n => .ok n
    | none => .error (.valueError s)
  | _ => .error .typeError

/-- Python `str(x)` (loose rendering; only scalar cases are exercised by the
embedded code). -/
def pyStr : JValue → String
  | .jnull => "None"
  | .jbool true => "True"
  | .jbool false => "False"
  | .jnum n => toString n
  | .jstr s => s
  | .jarr _ => "<list>"
  | .jobj _ => "<dict>"

/-- Python `str` of an optional attribute (None renders as "None"). -/
def pyStrOpt : Option JValue → String
  | none => "None"
  | some j => pyStr j

/-- A value that is either parsed JSON or a raw aiohttp ClientResponse object
(which does not support subscripting). -/
inductive PyValue where
  | json (j : JValue)
  | clientResponse (status : Nat) (body : JValue)

/-- Python subscript `v["k"]`: a raw ClientResponse is not subscriptable, so
subscripting it raises TypeError. -/
def pySub : PyValue → String → Except PyError JValue
  | .json j, k => jSub j k
  | .clientResponse _ _, _ => .error .typeError

/-- An HTTP response as observed through aiohttp: transport status, declared
content type, whether `.json()` would parse, the parsed body when it does, and
the raw text. -/
structure HttpResponse where
  status : Nat
  contentType : String
  jsonOk : Bool
  body : JValue
  text : String

/-- aiohttp `response.ok`: true iff status < 400. -/
def HttpResponse.ok (r : HttpResponse) : Bool := r.status < 400

/-- Endpoint Catalog entry: HTTP method and path template (const.py). -/
structure EndpointDescr where
  method : String
  endpoint : String

/-- App key constant (const.py API_APP_KEY / API_LEGACY_APP_KEY). -/
def API_LEGACY_APP_KEY : String := "2.7$1.9.4$Android$samsung$SM-N9005$11"

/-- Legacy API base URL (const.py). -/
def LEGACY_API_BASEURL : String := "https://my.anglianwater.co.uk/mobile/api"

/-- Modelled from the spec: const.LEGACY_API_ENDPOINTS is not under src/; the
entries follow the API_ENDPOINTS table of src/pyanglianwater/const.py and the
endpoint names used by LegacyAuth (static mapping name to method/path, spec
section 2 "Endpoint Catalog"). -/
def LEGACY_API_ENDPOINTS : List (String × EndpointDescr) :=
  [("login", ⟨"POST", "/Login"⟩),
   ("register_device", ⟨"POST", "/UpdateProfileSetupSAP"⟩),
   ("get_dashboard_details", ⟨"POST", "/GetDashboardDetails"⟩),
   ("get_bills_payments", ⟨"POST", "/GetBillsAndPayments"⟩),
   ("get_usage_details", ⟨"POST", "/GetMyUsagesDetailsFromAWBI"⟩)]

/-- Modelled from the spec: const.AW_APP_BASEURL is not under src/. -/
def AW_APP_BASEURL : String := "https://myaccount.anglianwater.co.uk/api"

/-- Modelled from the spec: const.AW_APP_ENDPOINTS is not under src/; the
Endpoint Catalog for the MSO/B2C variant is a static mapping from logical
endpoint name to method and path template (spec sections 2 and 4.2), with
entries taken from the endpoints exercised elsewhere in the repository. -/
def AW_APP_ENDPOINTS : List (String × EndpointDescr) :=
  [("get_associated_accounts", ⟨"GET", "/accounts"⟩),
   ("get_usage_details", ⟨"GET", "/usages/ACCOUNT_ID"⟩)]

/-- Modelled from the spec: exceptions.API_RESPONSE_STATUS_CODE_MAPPING is not
under src/.  Spec section 6: recognized vendor status-code strings map through
a fixed table to error kinds; section 8 Scenario E documents that code "5" is
mapped to ServiceUnavailableError. -/
def API_RESPONSE_STATUS_CODE_MAPPING : List (String × PyError) :=
  [("5", .serviceUnavailable)]

/-- State of a LegacyAuth object (attributes of BaseAuth/LegacyAuth,
auth.py:40-59). -/
structure LegacyState where
  access_token : Option JValue
  username : String
  password : String
  account_number : Option JValue
  primary_bp_number : Option JValue
  next_refresh : Option Int
  device_id : String

namespace LegacyAuth

/-- Embeds LegacyAuth.generate_partner_key (auth.py:92): the partner key
template API_LEGACY_PARTNER_KEY "Mobile$EMAIL$ACC_NO$DEV_ID$APP_KEY" filled
with "undefined" placeholders when no token is held. -/
def generate_partner_key (s : LegacyState) : String :=
  match s.access_token with
  | none =>
    "Mobile$undefined$undefined$" ++ s.device_id ++ "$" ++ API_LEGACY_APP_KEY
  | some _ =>
    "Mobile$" ++ s.username ++ "$" ++ pyStrOpt s.account_number ++ "$" ++
      s.device_id ++ "$" ++ API_LEGACY_APP_KEY

/-- Embeds LegacyAuth.parse_login_response (auth.py:108): three assignments,
each subscripting `response["Data"][0]` again, then the refresh-deadline
update (first login: now + 15 minutes; later: previous deadline + 15
minutes).  An exception leaves the object in the partially-mutated state
reached so far. -/
def parse_login_response (now : Int) (s : LegacyState) (response : PyValue) :
    Except PyError Unit × LegacyState :=
  match (pySub response "Data").bind (fun d => jIdx d 0) |>.bind
      (fun d0 => jSub d0 "AuthToken") with
  | .error e => (.error e, s)
  | .ok tok =>
    let s1 := { s with access_token := some tok }
    match (pySub response "Data").bind (fun d => jIdx d 0) |>.bind
        (fun d0 => jSub d0 "ActualBPNumber") with
    | .error e => (.error e, s1)
    | .ok bp =>
      let s2 := { s1 with primary_bp_number := some bp }
      match (pySub response "Data").bind (fun d => jIdx d 0) |>.bind
          (fun d0 => jSub d0 "ActualAccountNo") with
      | .error e => (.error e, s2)
      | .ok acc =>
        let s3 := { s2 with account_number := some acc }
        match s3.next_refresh with
        | none => (.ok (), { s3 with next_refresh := some (now + 15 * 60) })
        | some nr => (.ok (), { s3 with next_refresh := some (nr + 15 * 60) })

/-- Embeds LegacyAuth.send_login_request (auth.py:221): issues one POST to the
legacy login URL and passes the raw ClientResponse object itself - not
`await resp.json()` - to parse_login_response.  Returns (outcome, state,
number of login HTTP requests issued). -/
def send_login_request (now : Int) (loginResp : HttpResponse) (s : LegacyState) :
    Except PyError Unit × LegacyState × Nat :=
  let pr := parse_login_response now s
    (.clientResponse loginResp.status loginResp.body)
  (pr.1, pr.2, 1)

/-- Embeds BaseAuth.send_refresh_request (auth.py:61) as inherited by
LegacyAuth: ValueError when not logged in; comparing a None deadline against
`datetime.now()` raises TypeError; a still-future deadline is a no-op;
otherwise the login request is re-sent. -/
def send_refresh_request (now : Int) (loginResp : HttpResponse) (s : LegacyState) :
    Except PyError Unit × LegacyState × Nat :=
  match s.access_token with
  | none => (.error (.valueError "Not logged in."), s, 0)
  | some _ =>
    match s.next_refresh with
    | none => (.error .typeError, s, 0)
    | some nr =>
      if now < nr then (.ok (), s, 0)
      else send_login_request now loginResp s

end LegacyAuth

/-- Observable content of one issued API HTTP request: target URL, the
Authorization header (present iff a token was in the headers dict), and the
Partnerkey header. -/
structure SentRequest where
  url : String
  authHeader : Option JValue
  partnerKey : String

/-- Result of one LegacyAuth.send_request dispatch: outcome, the state the
object is left in, the API HTTP requests issued (in order), and the number of
login HTTP requests issued along the way. -/
structure LegacyResult where
  outcome : Except PyError JValue
  state : LegacyState
  sent : List SentRequest
  loginCalls : Nat

namespace LegacyAuth

/-- Embeds LegacyAuth.send_request (auth.py:119).  Catalog check first (a miss
raises ValueError before any I/O); headers are built from the state as it is
at entry, before the refresh; on 401 the code refreshes and recursively
retries itself with no cap (`fuel` is the Python recursion limit); on 503 it
clears the token and raises ServiceUnavailableError; otherwise the body is
classified by content type and its StatusCode field. -/
def send_request (loginResp : HttpResponse) (env : Nat → HttpResponse) (now : Int) :
    Nat → Nat → LegacyState → String → JValue → LegacyResult
  | 0, _, s, _, _ => ⟨.error .recursionError, s, [], 0⟩
  | fuel + 1, k, s, endpoint, body =>
    match lookupStr LEGACY_API_ENDPOINTS endpoint with
    | none => ⟨.error (.valueError "Provided API Endpoint does not exist."), s, [], 0⟩
    | some em =>
      let pk := generate_partner_key s
      let auth := s.access_token
      match send_refresh_request now loginResp s with
      | (.error e, s1, lc) => ⟨.error e, s1, [], lc⟩
      | (.ok _, s1, lc) =>
        match s1.access_token with
        | none => ⟨.error .expiredAccessToken, s1, [], lc⟩
        | some _ =>
          let r := env k
          let req : SentRequest := ⟨LEGACY_API_BASEURL ++ em.endpoint, auth, pk⟩
          if !r.ok && r.status == 401 then
            match send_refresh_request now loginResp s1 with
            | (.error e, s2, lc2) => ⟨.error e, s2, [req], lc + lc2⟩
            | (.ok _, s2, lc2) =>
              let rec1 := send_request loginResp env now fuel (k + 1) s2 endpoint body
              ⟨rec1.outcome, rec1.state, req :: rec1.sent, lc + lc2 + rec1.loginCalls⟩
          else if !r.ok && r.status == 503 then
            ⟨.error .serviceUnavailable, { s1 with access_token := none }, [req], lc⟩
          else if r.contentType != "application/json" then
            ⟨.error (.unknownEndpoint (.jstr r.text)), s1, [req], lc⟩
          else if !r.jsonOk then
            ⟨.error .jsonDecodeError, s1, [req], lc⟩
          else
            match jSub r.body "StatusCode" with
            | .error e => ⟨.error e, s1, [req], lc⟩
            | .ok code =>
              match code with
              | .jstr c =>
                if c = "0" then ⟨.ok r.body, s1, [req], lc⟩
                else
                  match lookupStr API_RESPONSE_STATUS_CODE_MAPPING c with
                  | some err => ⟨.error err, s1, [req], lc⟩
                  | none => ⟨.error (.unknownEndpoint r.body), s1, [req], lc⟩
              | _ => ⟨.error (.unknownEndpoint r.body), s1, [req], lc⟩

end LegacyAuth

/-- Modelled from the spec: utils.random_string is not under src/ (spec
section 4.3: a cryptographically random verifier of length in [43,128]).
The draw that initializes the class attribute MSOB2CAuth._pkce_verifier
(auth.py:237) happens exactly once, when the class object is created; this
constant is that single draw, shared by every instance. -/
def msoClassPkceVerifier : String := "pkce-verifier-drawn-once-at-class-creation"

/-- The single class-creation-time draw of secrets.token_urlsafe(32) that
initializes the class attribute MSOB2CAuth._state (auth.py:239). -/
def msoClassState : String := "state-nonce-drawn-once-at-class-creation"

/-- Modelled from the spec: utils.build_code_challenge is not under src/.
Spec section 4.3: the challenge is derived from the verifier by the standard
deterministic PKCE transform (hash then encode); modelled abstractly as an
injective deterministic function of the verifier. -/
def build_code_challenge (verifier : String) : String := "S256." ++ verifier

/-- State of an MSOB2CAuth object (auth.py:235-242 plus inherited BaseAuth
attributes).  pkce_verifier and state_nonce start from the class-level
attribute values. -/
structure MSOState where
  auth_data : Option JValue
  next_refresh : Option Int
  username : String
  password : String
  account_number : Option JValue
  pkce_verifier : String
  pkce_challenge : Option String
  state_nonce : String
  csrf_token : String

/-- Outcome half of the PKCE flow environment for the self-asserted step and
friends: raw page scraping is represented by its result. -/
structure SettingsBlock where
  csrf : Option String
  transId : Option String

/-- Environment of one PKCE login attempt: the fresh randomness drawn during
the attempt and the responses of the vendor to the four HTTP round trips.  HTML
scraping and redirect decoding (utils.decode_oauth_redirect, not under src/,
modelled from the spec: extraction of the state and authorization code from
the query parameters of the Location URL) are represented by their outcomes. -/
structure FlowEnv where
  freshState : String
  step1Status : Nat
  step1Settings : Option SettingsBlock
  assertedStatus : Nat
  assertedJsonOk : Bool
  assertedBody : JValue
  confirmStatus : Nat
  confirmLocation : Option String
  redirectState : Option String
  redirectCode : Option String
  tokenStatus : Nat
  tokenJsonOk : Bool
  tokenBody : JValue

/-- Python falsiness of an optional string (None or empty). -/
def strFalsy : Option String → Bool
  | none => true
  | some s => s = ""

namespace MSOB2CAuth

/-- Embeds MSOB2CAuth construction via BaseAuth.__init__ (auth.py:51,235-242):
a fresh instance reads the class attributes, so every instance starts with the
same _pkce_verifier and _state values. -/
def mkState (username password : String) : MSOState :=
  { auth_data := none, next_refresh := none, username := username,
    password := password, account_number := none,
    pkce_verifier := msoClassPkceVerifier, pkce_challenge := none,
    state_nonce := msoClassState, csrf_token := "" }

/-- Embeds the MSOB2CAuth.access_token property (auth.py:244):
`self.auth_data.get("access_token")` raises AttributeError when auth_data is
None (or any non-dict). -/
def access_token (s : MSOState) : Except PyError (Option JValue) :=
  match s.auth_data with
  | some (.jobj fs) => .ok (lookupStr fs "access_token")
  | _ => .error .attributeError

/-- Embeds the MSOB2CAuth.refresh_token property (auth.py:249). -/
def refresh_token (s : MSOState) : Except PyError (Option JValue) :=
  match s.auth_data with
  | some (.jobj fs) => .ok (lookupStr fs "refresh_token")
  | _ => .error .attributeError

/-- Embeds MSOB2CAuth.get_authenticated_headers (auth.py:254): the value of
the Authorization header (the other three headers are constants).  Reading the
access_token property can itself raise. -/
def get_authenticated_headers (s : MSOState) : Except PyError String :=
  match access_token s with
  | .error e => .error e
  | .ok tok => .ok ("Bearer " ++ pyStrOpt tok)

/-- Outcome of the authorize round trip of _get_initial_auth_data: None when
the GET is not ok, the SETTINGS block is missing, or csrf/transId do not
match; otherwise the scraped (csrf, transId). -/
def initial_auth_outcome (fenv : FlowEnv) : Option (String × String) :=
  if fenv.step1Status ≥ 400 then none
  else
    match fenv.step1Settings with
    | none => none
    | some sb =>
      match sb.csrf, sb.transId with
      | some c, some t => some (c, t)
      | _, _ => none

/-- Embeds MSOB2CAuth._get_initial_auth_data (auth.py:264): redraws _state
from fresh randomness, recomputes _pkce_challenge from the never-redrawn
_pkce_verifier, then performs the authorize GET and scrapes the page. -/
def get_initial_auth_data (fenv : FlowEnv) (s : MSOState) :
    Option (String × String) × MSOState :=
  (initial_auth_outcome fenv,
   { s with state_nonce := fenv.freshState,
            pkce_challenge := some (build_code_challenge s.pkce_verifier) })

/-- Outcome of the self-asserted POST of _submit_self_asserted_form
(auth.py:303): the body is parsed first (a decode failure raises); a non-200
HTTP status short-circuits to None; otherwise `int(data["status"])` is
compared with 200 (a missing or ill-typed field raises). -/
def asserted_outcome (fenv : FlowEnv) : Except PyError (Option Unit) :=
  if !fenv.assertedJsonOk then .error .jsonDecodeError
  else if fenv.assertedStatus ≠ 200 then .ok none
  else
    match jSub fenv.assertedBody "status" with
    | .error e => .error e
    | .ok v =>
      match pyInt v with
      | .error e => .error e
      | .ok n => if n ≠ 200 then .ok none else .ok (some ())

/-- Embeds MSOB2CAuth._submit_self_asserted_form (auth.py:303); the object
state is not mutated by this step. -/
def submit_self_asserted_form (fenv : FlowEnv) (s : MSOState) :
    Except PyError (Option Unit) × MSOState :=
  (asserted_outcome fenv, s)

/-- Outcome of _get_confirmation_redirect (auth.py:334): requires exactly a
302 and a non-falsy Location header. -/
def confirm_outcome (fenv : FlowEnv) : Option String :=
  if fenv.confirmStatus ≠ 302 then none
  else
    match fenv.confirmLocation with
    | none => none
    | some loc => if loc = "" then none else some loc

/-- Embeds MSOB2CAuth._get_confirmation_redirect (auth.py:334); no state
mutation. -/
def get_confirmation_redirect (fenv : FlowEnv) (s : MSOState) :
    Option String × MSOState :=
  (confirm_outcome fenv, s)

/-- Outcome of _get_token (auth.py:354): non-200 returns None; a JSON decode
failure is caught and returns None; otherwise the parsed token payload. -/
def token_outcome (fenv : FlowEnv) : Option JValue :=
  if fenv.tokenStatus ≠ 200 then none
  else if !fenv.tokenJsonOk then none
  else some fenv.tokenBody

/-- Embeds MSOB2CAuth._get_token (auth.py:354); no state mutation. -/
def get_token (fenv : FlowEnv) (s : MSOState) : Option JValue × MSOState :=
  (token_outcome fenv, s)

/-- Embeds MSOB2CAuth.send_login_request (auth.py:386): the full PKCE flow.
Every helper failure is a bare `return` (outcome `.ok ()`, nothing raised, no
commit); only after all four round trips succeed are auth_data and then
next_refresh written, the deadline being now plus the expires_in field of the token
claim.  The middle helpers do not mutate state, so the state after each is
the state passed in. -/
def send_login_request (fenv : FlowEnv) (now : Int) (s : MSOState) :
    Except PyError Unit × MSOState :=
  let s1 := (get_initial_auth_data fenv s).2
  match (get_initial_auth_data fenv s).1 with
  | none => (.ok (), s1)
  | some (csrf, _transId) =>
    let s2 := { s1 with csrf_token := csrf }
    match (submit_self_asserted_form fenv s2).1 with
    | .error e => (.error e, s2)
    | .ok none => (.ok (), s2)
    | .ok (some _) =>
      match (get_confirmation_redirect fenv s2).1 with
      | none => (.ok (), s2)
      | some _loc =>
        if strFalsy fenv.redirectCode then (.ok (), s2)
        else
          match (get_token fenv s2).1 with
          | none => (.ok (), s2)
          | some tokenResp =>
            let s3 := { s2 with auth_data := some tokenResp }
            match jSub tokenResp "expires_in" with
            | .error e => (.error e, s3)
            | .ok (.jnum secs) => (.ok (), { s3 with next_refresh := some (now + secs) })
            | .ok _ => (.error .typeError, s3)

/-- Embeds BaseAuth.send_refresh_request (auth.py:61) as inherited by
MSOB2CAuth: the access_token property read can itself raise AttributeError;
ValueError when the token is None; TypeError when comparing a None deadline;
no-op on a still-future deadline; otherwise the full login flow re-runs. -/
def send_refresh_request (fenv : FlowEnv) (now : Int) (s : MSOState) :
    Except PyError Unit × MSOState :=
  match access_token s with
  | .error e => (.error e, s)
  | .ok none => (.error (.valueError "Not logged in."), s)
  | .ok (some _) =>
    match s.next_refresh with
    | none => (.error .typeError, s)
    | some nr =>
      if now < nr then (.ok (), s)
      else send_login_request fenv now s

end MSOB2CAuth

/-- Observable content of one API HTTP request issued by
MSOB2CAuth.send_request: the Authorization header it carried. -/
structure MSOSent where
  authHeader : String

/-- Result of one MSOB2CAuth.send_request dispatch. -/
structure MSOResult where
  outcome : Except PyError JValue
  state : MSOState
  sent : List MSOSent

namespace MSOB2CAuth

/-- Embeds MSOB2CAuth.send_request (auth.py:411): catalog check first (a miss
raises ValueError before any I/O); headers built from the state at entry,
before the refresh; exactly one HTTP attempt; an ok JSON response is returned
unchecked; 401/403 raises ExpiredAccessTokenError with no retry; anything else
raises UnknownEndpointError carrying status and text.  `env k` is the response
to the one API HTTP request this call issues. -/
def send_request (fenv : FlowEnv) (env : Nat → HttpResponse) (k : Nat) (now : Int)
    (s : MSOState) (endpoint : String) (_body : JValue) : MSOResult :=
  match lookupStr AW_APP_ENDPOINTS endpoint with
  | none => ⟨.error (.valueError "Provided API Endpoint does not exist."), s, []⟩
  | some _em =>
    match get_authenticated_headers s with
    | .error e => ⟨.error e, s, []⟩
    | .ok authHeader =>
      match send_refresh_request fenv now s with
      | (.error e, s1) => ⟨.error e, s1, []⟩
      | (.ok _, s1) =>
        match access_token s1 with
        | .error e => ⟨.error e, s1, []⟩
        | .ok none => ⟨.error .expiredAccessToken, s1, []⟩
        | .ok (some _) =>
          let r := env k
          let req : MSOSent := ⟨authHeader⟩
          if r.ok && (r.contentType == "application/json") then
            if r.jsonOk then ⟨.ok r.body, s1, [req]⟩
            else ⟨.error .jsonDecodeError, s1, [req]⟩
          else if r.status == 401 || r.status == 403 then
            ⟨.error .expiredAccessToken, s1, [req]⟩
          else
            ⟨.error (.unknownEndpoint (.jarr [.jnum (r.status : Int), .jstr r.text])), s1, [req]⟩

end MSOB2CAuth

/-! Concrete fixtures used as inputs for witnesses and counterexamples. -/

/-- A plain successful JSON response with vendor StatusCode "0". -/
def respOkZero : HttpResponse :=
  { status := 200, contentType := "application/json", jsonOk := true,
    body := .jobj [("StatusCode", .jstr "0"), ("Data", .jarr [])], text := "" }

/-- An unauthorized transport response. -/
def resp401 : HttpResponse :=
  { status := 401, contentType := "text/html", jsonOk := false,
    body := .jnull, text := "unauthorized" }

/-- A 503 outage transport response. -/
def resp503 : HttpResponse :=
  { status := 503, contentType := "text/html", jsonOk := false,
    body := .jnull, text := "service unavailable" }

/-- An environment whose every response is trivially successful. -/
def envTrivial : Nat → HttpResponse := fun _ => respOkZero

/-- A PKCE flow environment that fails at the very first round trip. -/
def fenvTrivial : FlowEnv :=
  { freshState := "nonce-0", step1Status := 500, step1Settings := none,
    assertedStatus := 0, assertedJsonOk := false, assertedBody := .jnull,
    confirmStatus := 0, confirmLocation := none, redirectState := none,
    redirectCode := none, tokenStatus := 0, tokenJsonOk := false,
    tokenBody := .jnull }

/-- A PKCE flow environment in which every round trip succeeds and the token
endpoint returns the given access token and expires_in claim. -/
def flowEnvSuccess (nonce tok : String) (expiresIn : Int) : FlowEnv :=
  { freshState := nonce, step1Status := 200,
    step1Settings := some ⟨some "csrf-1", some "trans-1"⟩,
    assertedStatus := 200, assertedJsonOk := true,
    assertedBody := .jobj [("status", .jnum 200)],
    confirmStatus := 302, confirmLocation := some "https://redir.example/cb",
    redirectState := some "st-1", redirectCode := some "auth-code-1",
    tokenStatus := 200, tokenJsonOk := true,
    tokenBody := .jobj [("access_token", .jstr tok),
                        ("refresh_token", .jstr "rtok-1"),
                        ("expires_in", .jnum expiresIn)] }

/-- A legacy authenticator state that is logged in with a still-future refresh
deadline (relative to clock value 0). -/
def legacyLoggedIn : LegacyState :=
  { access_token := some (.jstr "legacy-tok"), username := "user@example.com",
    password := "pw", account_number := some (.jstr "123"),
    primary_bp_number := some (.jstr "bp-1"), next_refresh := some 1000,
    device_id := "dev-1" }

/-- An MSO authenticator state that is logged in with a still-future refresh
deadline (relative to clock value 0). -/
def msoLoggedIn : MSOState :=
  { auth_data := some (.jobj [("access_token", .jstr "mso-tok"),
                              ("refresh_token", .jstr "mso-rtok")]),
    next_refresh := some 1000, username := "user@example.com", password := "pw",
    account_number := some (.jstr "123"),
    pkce_verifier := msoClassPkceVerifier, pkce_challenge := none,
    state_nonce := msoClassState, csrf_token := "" }

/-! Shared helper lemmas. -/

/-- With a token held and a still-future deadline, the legacy refresh is a
no-op that issues no login request. -/
theorem LegacyAuth.legacy_refresh_noop (now : Int) (loginResp : HttpResponse)
    (s : LegacyState) (tok : JValue) (nr : Int)
    (ht : s.access_token = some tok) (hn : s.next_refresh = some nr)
    (hf : now < nr) :
    LegacyAuth.send_refresh_request now loginResp s = (.ok (), s, 0) := by
  simp [LegacyAuth.send_refresh_request, ht, hn, hf]

/-- Reading the access_token property of a logged-in MSO state. -/
theorem MSOB2CAuth.access_token_of_logged_in (s : MSOState)
    (fs : List (String × JValue)) (tok : JValue)
    (ha : s.auth_data = some (.jobj fs))
    (ht : lookupStr fs "access_token" = some tok) :
    MSOB2CAuth.access_token s = .ok (some tok) := by
  simp [MSOB2CAuth.access_token, ha, ht]

/-- With a token held and a still-future deadline, the MSO refresh is a
no-op. -/
theorem MSOB2CAuth.mso_refresh_noop (fenv : FlowEnv) (now : Int) (s : MSOState)
    (fs : List (String × JValue)) (tok : JValue) (nr : Int)
    (ha : s.auth_data = some (.jobj fs))
    (ht : lookupStr fs "access_token" = some tok)
    (hn : s.next_refresh = some nr) (hf : now < nr) :
    MSOB2CAuth.send_refresh_request fenv now s = (.ok (), s) := by
  simp [MSOB2CAuth.send_refresh_request,
    MSOB2CAuth.access_token_of_logged_in s fs tok ha ht, hn, hf]

/-- On a logged-in MSO state with a still-future deadline, send_request
reduces to the classification of the single response it receives, with the
Authorization header computed from the entry state. -/
theorem MSOB2CAuth.send_request_classify (fenv : FlowEnv)
    (env : Nat → HttpResponse) (k : Nat) (now : Int) (s : MSOState)
    (ep : String) (body : JValue) (em : EndpointDescr)
    (fs : List (String × JValue)) (tok : JValue) (nr : Int)
    (hep : lookupStr AW_APP_ENDPOINTS ep = some em)
    (ha : s.auth_data = some (.jobj fs))
    (ht : lookupStr fs "access_token" = some tok)
    (hn : s.next_refresh = some nr) (hf : now < nr) :
    MSOB2CAuth.send_request fenv env k now s ep body =
      (let r := env k
       let req : MSOSent := ⟨"Bearer " ++ pyStrOpt (some tok)⟩
       if r.ok && (r.contentType == "application/json") then
         if r.jsonOk then ⟨.ok r.body, s, [req]⟩
         else ⟨.error .jsonDecodeError, s, [req]⟩
       else if r.status == 401 || r.status == 403 then
         ⟨.error .expiredAccessToken, s, [req]⟩
       else
         ⟨.error (.unknownEndpoint (.jarr [.jnum (r.status : Int), .jstr r.text])),
          s, [req]⟩) := by
  have hat := MSOB2CAuth.access_token_of_logged_in s fs tok ha ht
  have hre := MSOB2CAuth.mso_refresh_noop fenv now s fs tok nr ha ht hn hf
  unfold MSOB2CAuth.send_request MSOB2CAuth.get_authenticated_headers
  simp only [hep, hat, hre]

/-! Claim theorems. -/

/-- C9: LegacyAuth.send_login_request passes the raw ClientResponse object to
parse_login_response, which immediately subscripts it with "Data"; since a
ClientResponse is not subscriptable, every legacy login attempt raises an
unclassified TypeError after the single login POST, and the object state (in
particular access_token and the refresh deadline) is left exactly as it was:
no call can ever set access_token. -/
theorem C9_legacy_login_always_raises_type_error
    (now : Int) (loginResp : HttpResponse) (s : LegacyState) :
    LegacyAuth.send_login_request now loginResp s = (.error .typeError, s, 1) := rfl

/-- C10: on an MSOB2CAuth instance on which no login has succeeded
(auth_data = None), reading the access_token or refresh_token property raises
AttributeError from dereferencing None, and send_request on a catalog endpoint
raises that same untyped AttributeError while building the authenticated
headers - before any token check and before any network call - rather than
returning None or raising the typed ExpiredAccessTokenError. -/
theorem C10_mso_prelogin_attribute_error
    (fenv : FlowEnv) (env : Nat → HttpResponse) (k : Nat) (now : Int)
    (s : MSOState) (endpoint : String) (body : JValue) (em : EndpointDescr)
    (hd : s.auth_data = none)
    (hep : lookupStr AW_APP_ENDPOINTS endpoint = some em) :
    MSOB2CAuth.access_token s = .error .attributeError
      ∧ MSOB2CAuth.refresh_token s = .error .attributeError
      ∧ (MSOB2CAuth.send_request fenv env k now s endpoint body).outcome
          = .error .attributeError
      ∧ (MSOB2CAuth.send_request fenv env k now s endpoint body).sent = []
      ∧ (MSOB2CAuth.send_request fenv env k now s endpoint body).outcome
          ≠ .error .expiredAccessToken := by
  have hat : MSOB2CAuth.access_token s = .error .attributeError := by
    unfold MSOB2CAuth.access_token
    rw [hd]
  have hrt : MSOB2CAuth.refresh_token s = .error .attributeError := by
    unfold MSOB2CAuth.refresh_token
    rw [hd]
  have hsr : MSOB2CAuth.send_request fenv env k now s endpoint body
      = ⟨.error .attributeError, s, []⟩ := by
    unfold MSOB2CAuth.send_request MSOB2CAuth.get_authenticated_headers
    rw [hep, hat]
  refine ⟨hat, hrt, ?_, ?_, ?_⟩
  · rw [hsr]
  · rw [hsr]
  · rw [hsr]
    simp

/-- C2 counterexample: at the concrete endpoint name "no_such_endpoint",
absent from both catalogs, the dispatch of each authenticator raises builtin
ValueError (not UnknownEndpointError as the claim states) and makes no network
call. -/
theorem C2_counterexample :
    (LegacyAuth.send_request respOkZero envTrivial 0 5 0 legacyLoggedIn
        "no_such_endpoint" .jnull).outcome
      = .error (.valueError "Provided API Endpoint does not exist.")
    ∧ (LegacyAuth.send_request respOkZero envTrivial 0 5 0 legacyLoggedIn
        "no_such_endpoint" .jnull).sent = []
    ∧ (LegacyAuth.send_request respOkZero envTrivial 0 5 0 legacyLoggedIn
        "no_such_endpoint" .jnull).loginCalls = 0
    ∧ (MSOB2CAuth.send_request fenvTrivial envTrivial 0 0 msoLoggedIn
        "no_such_endpoint" .jnull).outcome
      = .error (.valueError "Provided API Endpoint does not exist.")
    ∧ (MSOB2CAuth.send_request fenvTrivial envTrivial 0 0 msoLoggedIn
        "no_such_endpoint" .jnull).sent = []
    ∧ ¬ ∃ d, (LegacyAuth.send_request respOkZero envTrivial 0 5 0 legacyLoggedIn
        "no_such_endpoint" .jnull).outcome = .error (.unknownEndpoint d) := by
  refine ⟨rfl, rfl, rfl, rfl, rfl, ?_⟩
  rintro ⟨d, h⟩
  have h1 : (Except.error (PyError.valueError "Provided API Endpoint does not exist.")
      : Except PyError JValue) = .error (.unknownEndpoint d) := h
  injection h1 with h2
  exact PyError.noConfusion h2

/-- C2 amended: dispatching an endpoint name absent from the catalog of the variant
raises builtin ValueError ("Provided API Endpoint does not exist."), not
UnknownEndpointError, and no network call of any kind is made. -/
theorem C2_amended_unknown_endpoint_is_value_error
    (loginResp : HttpResponse) (env env2 : Nat → HttpResponse) (now now2 : Int)
    (fuel k k2 : Nat) (s : LegacyState) (s2 : MSOState) (fenv : FlowEnv)
    (ep ep2 : String) (body body2 : JValue)
    (h1 : lookupStr LEGACY_API_ENDPOINTS ep = none)
    (h2 : lookupStr AW_APP_ENDPOINTS ep2 = none) :
    LegacyAuth.send_request loginResp env now (fuel + 1) k s ep body
      = ⟨.error (.valueError "Provided API Endpoint does not exist."), s, [], 0⟩
    ∧ MSOB2CAuth.send_request fenv env2 k2 now2 s2 ep2 body2
      = ⟨.error (.valueError "Provided API Endpoint does not exist."), s2, []⟩ := by
  constructor
  · simp only [LegacyAuth.send_request, h1]
  · simp only [MSOB2CAuth.send_request, h2]

/-- Witness for C2 at the concrete endpoint name "no_such_endpoint". -/
theorem C2_witness :
    lookupStr LEGACY_API_ENDPOINTS "no_such_endpoint" = none
    ∧ lookupStr AW_APP_ENDPOINTS "no_such_endpoint" = none
    ∧ (LegacyAuth.send_request respOkZero envTrivial 0 (4 + 1) 0 legacyLoggedIn
          "no_such_endpoint" .jnull
        = ⟨.error (.valueError "Provided API Endpoint does not exist."),
           legacyLoggedIn, [], 0⟩
      ∧ MSOB2CAuth.send_request fenvTrivial envTrivial 0 0 msoLoggedIn
          "no_such_endpoint" .jnull
        = ⟨.error (.valueError "Provided API Endpoint does not exist."),
           msoLoggedIn, []⟩) :=
  ⟨rfl, rfl,
   C2_amended_unknown_endpoint_is_value_error respOkZero envTrivial envTrivial
     0 0 4 0 0 legacyLoggedIn msoLoggedIn fenvTrivial "no_such_endpoint"
     "no_such_endpoint" .jnull .jnull rfl rfl⟩

/-- A PKCE flow environment in which the self-asserted step rejects the
credentials (HTTP 200 with a JSON status field of 400). -/
def fenvRejectCreds : FlowEnv :=
  { freshState := "nonce-1", step1Status := 200,
    step1Settings := some ⟨some "csrf-1", some "trans-1"⟩,
    assertedStatus := 200, assertedJsonOk := true,
    assertedBody := .jobj [("status", .jnum 400)],
    confirmStatus := 0, confirmLocation := none, redirectState := none,
    redirectCode := none, tokenStatus := 0, tokenJsonOk := false,
    tokenBody := .jnull }

/-- C3 counterexample: when the self-asserted step rejects identity/secret,
send_login_request returns normally (outcome .ok (), no exception of any kind,
in particular no InvalidCredentialsError as the claim states), leaving
auth_data and next_refresh untouched. -/
theorem C3_counterexample :
    (MSOB2CAuth.send_login_request fenvRejectCreds 0
        (MSOB2CAuth.mkState "u" "p")).1 = .ok ()
    ∧ (MSOB2CAuth.send_login_request fenvRejectCreds 0
        (MSOB2CAuth.mkState "u" "p")).2.auth_data = none
    ∧ (MSOB2CAuth.send_login_request fenvRejectCreds 0
        (MSOB2CAuth.mkState "u" "p")).2.next_refresh = none := ⟨rfl, rfl, rfl⟩

/-- C3 amended: on credential rejection at the self-asserted step the MSO
login raises nothing at all - it returns silently (outcome .ok ()) - and the
TokenState (auth_data, next_refresh, hence access_token) is left exactly as it
was before the call; no typed InvalidCredentialsError exists in this code
path. -/
theorem C3_amended_rejection_is_silent
    (fenv : FlowEnv) (now : Int) (s : MSOState) (c t : String)
    (h1 : MSOB2CAuth.initial_auth_outcome fenv = some (c, t))
    (h2 : MSOB2CAuth.asserted_outcome fenv = .ok none) :
    (MSOB2CAuth.send_login_request fenv now s).1 = .ok ()
    ∧ (MSOB2CAuth.send_login_request fenv now s).2.auth_data = s.auth_data
    ∧ (MSOB2CAuth.send_login_request fenv now s).2.next_refresh
        = s.next_refresh := by
  simp [MSOB2CAuth.send_login_request, MSOB2CAuth.get_initial_auth_data,
    MSOB2CAuth.submit_self_asserted_form, h1, h2]

/-- Witness for C3 at the concrete rejection environment. -/
theorem C3_witness :
    MSOB2CAuth.initial_auth_outcome fenvRejectCreds = some ("csrf-1", "trans-1")
    ∧ MSOB2CAuth.asserted_outcome fenvRejectCreds = .ok none
    ∧ ((MSOB2CAuth.send_login_request fenvRejectCreds 7
          (MSOB2CAuth.mkState "a" "b")).1 = .ok ()
      ∧ (MSOB2CAuth.send_login_request fenvRejectCreds 7
          (MSOB2CAuth.mkState "a" "b")).2.auth_data
          = (MSOB2CAuth.mkState "a" "b").auth_data
      ∧ (MSOB2CAuth.send_login_request fenvRejectCreds 7
          (MSOB2CAuth.mkState "a" "b")).2.next_refresh
          = (MSOB2CAuth.mkState "a" "b").next_refresh) :=
  ⟨rfl, rfl,
   C3_amended_rejection_is_silent fenvRejectCreds 7 (MSOB2CAuth.mkState "a" "b")
     "csrf-1" "trans-1" rfl rfl⟩

/-- C4 counterexample: two consecutive login attempts on the same instance,
each given distinct fresh randomness ("nonce-A" then "nonce-B", visibly
consumed by the state nonce), use the identical class-level PKCE verifier and
therefore derive the identical challenge; a distinct instance also starts with
that same verifier.  The PKCE verifier is reused across attempts and shared
across instances, contrary to the claim. -/
theorem C4_counterexample :
    ((MSOB2CAuth.send_login_request (flowEnvSuccess "nonce-A" "tok1" 100) 0
        (MSOB2CAuth.mkState "u" "p")).2).pkce_verifier = msoClassPkceVerifier
    ∧ ((MSOB2CAuth.send_login_request (flowEnvSuccess "nonce-B" "tok2" 100) 0
        ((MSOB2CAuth.send_login_request (flowEnvSuccess "nonce-A" "tok1" 100) 0
          (MSOB2CAuth.mkState "u" "p")).2)).2).pkce_verifier
        = msoClassPkceVerifier
    ∧ ((MSOB2CAuth.send_login_request (flowEnvSuccess "nonce-A" "tok1" 100) 0
        (MSOB2CAuth.mkState "u" "p")).2).state_nonce = "nonce-A"
    ∧ ((MSOB2CAuth.send_login_request (flowEnvSuccess "nonce-B" "tok2" 100) 0
        ((MSOB2CAuth.send_login_request (flowEnvSuccess "nonce-A" "tok1" 100) 0
          (MSOB2CAuth.mkState "u" "p")).2)).2).state_nonce = "nonce-B"
    ∧ ((MSOB2CAuth.send_login_request (flowEnvSuccess "nonce-B" "tok2" 100) 0
        ((MSOB2CAuth.send_login_request (flowEnvSuccess "nonce-A" "tok1" 100) 0
          (MSOB2CAuth.mkState "u" "p")).2)).2).pkce_challenge
        = ((MSOB2CAuth.send_login_request (flowEnvSuccess "nonce-A" "tok1" 100) 0
          (MSOB2CAuth.mkState "u" "p")).2).pkce_challenge
    ∧ (MSOB2CAuth.mkState "other" "creds").pkce_verifier
        = (MSOB2CAuth.mkState "u" "p").pkce_verifier :=
  ⟨rfl, rfl, rfl, rfl, rfl, rfl⟩

/-- C4 amended: per login attempt the state nonce is redrawn and the challenge
recomputed, but the PKCE verifier is a class-level value drawn once at class
creation: no login attempt ever changes it, and every instance starts with the
same shared verifier. -/
theorem C4_amended_verifier_is_class_level
    (fenv : FlowEnv) (now : Int) (s : MSOState) (u p : String) :
    (MSOB2CAuth.send_login_request fenv now s).2.pkce_verifier = s.pkce_verifier
    ∧ (MSOB2CAuth.mkState u p).pkce_verifier = msoClassPkceVerifier
    ∧ (MSOB2CAuth.get_initial_auth_data fenv s).2.state_nonce = fenv.freshState
    ∧ (MSOB2CAuth.get_initial_auth_data fenv s).2.pkce_challenge
        = some (build_code_challenge s.pkce_verifier) := by
  refine ⟨?_, rfl, rfl, rfl⟩
  simp only [MSOB2CAuth.send_login_request]
  repeat' split
  all_goals rfl

/-- C7 counterexample: a fully successful MSO login at clock 0 with an
expires_in claim of 3600 sets the refresh deadline to 3600, which is not
strictly before the actual expiry of the token 0 + 3600: there is no safety
margin. -/
theorem C7_counterexample :
    (MSOB2CAuth.send_login_request (flowEnvSuccess "nonce-C" "tokA" 3600) 0
        (MSOB2CAuth.mkState "u" "p")).2.next_refresh = some 3600
    ∧ ¬ ((3600 : Int) < 0 + 3600) := ⟨rfl, by decide⟩

/-- C7 amended: on a fully successful MSO login the refresh deadline is set to
now + expires_in - exactly the nominal expiry instant of the token, with no strict
safety margin before it.  (LegacyAuth logins never succeed, see the C9
theorem, so the legacy half of the claim is vacuous.) -/
theorem C7_amended_deadline_equals_expiry
    (fenv : FlowEnv) (now : Int) (s : MSOState) (c t loc code : String)
    (tokenResp : JValue) (secs : Int)
    (h1 : MSOB2CAuth.initial_auth_outcome fenv = some (c, t))
    (h2 : MSOB2CAuth.asserted_outcome fenv = .ok (some ()))
    (h3 : MSOB2CAuth.confirm_outcome fenv = some loc)
    (h4 : fenv.redirectCode = some code) (h5 : code ≠ "")
    (h6 : MSOB2CAuth.token_outcome fenv = some tokenResp)
    (h7 : jSub tokenResp "expires_in" = .ok (.jnum secs)) :
    (MSOB2CAuth.send_login_request fenv now s).1 = .ok ()
    ∧ (MSOB2CAuth.send_login_request fenv now s).2.auth_data = some tokenResp
    ∧ (MSOB2CAuth.send_login_request fenv now s).2.next_refresh
        = some (now + secs) := by
  have hsf : strFalsy fenv.redirectCode = false := by
    rw [h4]
    simp [strFalsy, h5]
  simp [MSOB2CAuth.send_login_request, MSOB2CAuth.get_initial_auth_data,
    MSOB2CAuth.submit_self_asserted_form, MSOB2CAuth.get_confirmation_redirect,
    MSOB2CAuth.get_token, h1, h2, h3, hsf, h6, h7]

/-- Witness for C7 at a concrete fully successful flow. -/
theorem C7_witness :
    jSub (flowEnvSuccess "nonce-D" "tokB" 7200).tokenBody "expires_in"
      = .ok (.jnum 7200)
    ∧ ((MSOB2CAuth.send_login_request (flowEnvSuccess "nonce-D" "tokB" 7200) 50
          (MSOB2CAuth.mkState "u" "p")).1 = .ok ()
      ∧ (MSOB2CAuth.send_login_request (flowEnvSuccess "nonce-D" "tokB" 7200) 50
          (MSOB2CAuth.mkState "u" "p")).2.auth_data
          = some (flowEnvSuccess "nonce-D" "tokB" 7200).tokenBody
      ∧ (MSOB2CAuth.send_login_request (flowEnvSuccess "nonce-D" "tokB" 7200) 50
          (MSOB2CAuth.mkState "u" "p")).2.next_refresh = some (50 + 7200)) :=
  ⟨rfl,
   C7_amended_deadline_equals_expiry (flowEnvSuccess "nonce-D" "tokB" 7200) 50
     (MSOB2CAuth.mkState "u" "p") "csrf-1" "trans-1" "https://redir.example/cb"
     "auth-code-1" (flowEnvSuccess "nonce-D" "tokB" 7200).tokenBody 7200
     rfl rfl rfl rfl (by decide) rfl rfl⟩

/-- An environment whose first response is 401 and whose subsequent responses
would all succeed. -/
def env401then200 : Nat → HttpResponse :=
  fun k => if k = 0 then resp401 else respOkZero

/-- An environment whose every response is 401. -/
def env401always : Nat → HttpResponse := fun _ => resp401

/-- C1 counterexample: on a logged-in MSO authenticator receiving a 401 whose
retry would have succeeded (the next response of the environment is a 200 with a
parseable body), dispatch performs no refresh-and-retry at all: it issues
exactly one HTTP request and immediately raises ExpiredAccessTokenError -
contrary to the claimed force-refresh-then-retry-exactly-once behavior. -/
theorem C1_counterexample :
    (MSOB2CAuth.send_request fenvTrivial env401then200 0 0 msoLoggedIn
        "get_usage_details" .jnull).outcome = .error .expiredAccessToken
    ∧ (MSOB2CAuth.send_request fenvTrivial env401then200 0 0 msoLoggedIn
        "get_usage_details" .jnull).sent.length = 1 := ⟨rfl, rfl⟩

/-- C1 amended: the two variants implement opposite policies, neither the
claimed exactly-once retry.  MSOB2CAuth never retries: any 401/403 on the
single attempt raises ExpiredAccessTokenError at once.  LegacyAuth retries
401s recursively with no cap: with a still-future refresh deadline, a
persistently 401-returning endpoint consumes the entire recursion budget
(fuel attempts issue fuel HTTP requests, ending in the recursion limit), so in
particular a third attempt does occur. -/
theorem C1_amended_retry_policies
    (fenv : FlowEnv) (env : Nat → HttpResponse) (k : Nat) (now : Int)
    (s : MSOState) (ep : String) (body : JValue) (em : EndpointDescr)
    (fs : List (String × JValue)) (tok : JValue) (nr : Int)
    (hep : lookupStr AW_APP_ENDPOINTS ep = some em)
    (ha : s.auth_data = some (.jobj fs))
    (ht : lookupStr fs "access_token" = some tok)
    (hn : s.next_refresh = some nr) (hf : now < nr)
    (hst : (env k).status = 401 ∨ (env k).status = 403)
    (loginResp : HttpResponse) (lenv : Nat → HttpResponse) (lnow : Int)
    (ls : LegacyState) (lep : String) (lbody : JValue) (lem : EndpointDescr)
    (ltok : JValue) (lnr : Int)
    (hlep : lookupStr LEGACY_API_ENDPOINTS lep = some lem)
    (hlt : ls.access_token = some ltok)
    (hln : ls.next_refresh = some lnr) (hlf : lnow < lnr)
    (hl401 : ∀ j, (lenv j).status = 401) :
    ((MSOB2CAuth.send_request fenv env k now s ep body).outcome
        = .error .expiredAccessToken
      ∧ (MSOB2CAuth.send_request fenv env k now s ep body).sent.length = 1)
    ∧ (∀ fuel k0,
        (LegacyAuth.send_request loginResp lenv lnow fuel k0 ls lep
            lbody).sent.length = fuel
        ∧ (LegacyAuth.send_request loginResp lenv lnow fuel k0 ls lep
            lbody).outcome = .error .recursionError) := by
  constructor
  · have hcl := MSOB2CAuth.send_request_classify fenv env k now s ep body em
      fs tok nr hep ha ht hn hf
    rcases hst with h | h <;> simp [hcl, HttpResponse.ok, h]
  · have hre := LegacyAuth.legacy_refresh_noop lnow loginResp ls ltok lnr hlt hln hlf
    intro fuel
    induction fuel with
    | zero => exact fun k0 => ⟨rfl, rfl⟩
    | succ n ih =>
      intro k0
      have h401 := hl401 k0
      have ihn := ih (k0 + 1)
      simp [LegacyAuth.send_request, hlep, hre, hlt, HttpResponse.ok, h401,
        ihn.1, ihn.2]

/-- Witness for C1 at concrete inputs: the MSO authenticator raises on the
first 401 after one request; the legacy authenticator given recursion budget 3
issues three requests against an always-401 endpoint. -/
theorem C1_witness :
    (401 : Nat) = 401
    ∧ ((MSOB2CAuth.send_request fenvTrivial env401then200 0 0 msoLoggedIn
          "get_usage_details" .jnull).outcome = .error .expiredAccessToken
      ∧ (MSOB2CAuth.send_request fenvTrivial env401then200 0 0 msoLoggedIn
          "get_usage_details" .jnull).sent.length = 1)
    ∧ ((LegacyAuth.send_request respOkZero env401always 0 3 0 legacyLoggedIn
          "get_dashboard_details" .jnull).sent.length = 3
      ∧ (LegacyAuth.send_request respOkZero env401always 0 3 0 legacyLoggedIn
          "get_dashboard_details" .jnull).outcome = .error .recursionError) := by
  have h := C1_amended_retry_policies fenvTrivial env401then200 0 0 msoLoggedIn
    "get_usage_details" .jnull ⟨"GET", "/usages/ACCOUNT_ID"⟩
    [("access_token", .jstr "mso-tok"), ("refresh_token", .jstr "mso-rtok")]
    (.jstr "mso-tok") 1000 rfl rfl rfl rfl (by decide) (Or.inl rfl)
    respOkZero env401always 0 legacyLoggedIn "get_dashboard_details" .jnull
    ⟨"POST", "/GetDashboardDetails"⟩ (.jstr "legacy-tok") 1000 rfl rfl rfl
    (by decide) (fun _ => rfl)
  exact ⟨rfl, h.1, h.2 3 0⟩

/-- An environment whose every response is an ok JSON body with vendor
StatusCode "5". -/
def envStatus5 : Nat → HttpResponse :=
  fun _ => { status := 200, contentType := "application/json", jsonOk := true,
             body := .jobj [("StatusCode", .jstr "5")], text := "" }

/-- C5 counterexample: on a logged-in legacy authenticator, a response body
with vendor StatusCode "5" makes dispatch raise the mapped
ServiceUnavailableError, but the stored access token is NOT cleared - it is
still the original token afterwards, contrary to the claim. -/
theorem C5_counterexample :
    (LegacyAuth.send_request respOkZero envStatus5 0 5 0 legacyLoggedIn
        "get_dashboard_details" .jnull).outcome = .error .serviceUnavailable
    ∧ (LegacyAuth.send_request respOkZero envStatus5 0 5 0 legacyLoggedIn
        "get_dashboard_details" .jnull).state.access_token
      = some (.jstr "legacy-tok") := ⟨rfl, rfl⟩

/-- C5 amended: for a dispatched legacy call whose ok JSON body carries the
vendor StatusCode field: value "0" returns the parsed body unchanged; a value
in the status-code table raises the mapped error but leaves the access token
in place (the token is cleared only on transport-level 503, not here); any
other value raises UnknownEndpointError carrying the full body. -/
theorem C5_amended_status_code_table
    (loginResp : HttpResponse) (env : Nat → HttpResponse) (now : Int)
    (fuel k : Nat) (s : LegacyState) (ep : String) (body : JValue)
    (em : EndpointDescr) (tok : JValue) (nr : Int) (c : String)
    (hep : lookupStr LEGACY_API_ENDPOINTS ep = some em)
    (ht : s.access_token = some tok)
    (hn : s.next_refresh = some nr) (hf : now < nr)
    (hok : (env k).status = 200)
    (hct : (env k).contentType = "application/json")
    (hjs : (env k).jsonOk = true)
    (hsc : jSub (env k).body "StatusCode" = .ok (.jstr c)) :
    (c = "0" →
      (LegacyAuth.send_request loginResp env now (fuel + 1) k s ep
          body).outcome = .ok (env k).body)
    ∧ (∀ e, c ≠ "0" → lookupStr API_RESPONSE_STATUS_CODE_MAPPING c = some e →
      (LegacyAuth.send_request loginResp env now (fuel + 1) k s ep
          body).outcome = .error e
      ∧ (LegacyAuth.send_request loginResp env now (fuel + 1) k s ep
          body).state.access_token = some tok)
    ∧ (c ≠ "0" → lookupStr API_RESPONSE_STATUS_CODE_MAPPING c = none →
      (LegacyAuth.send_request loginResp env now (fuel + 1) k s ep
          body).outcome = .error (.unknownEndpoint (env k).body)) := by
  have hre := LegacyAuth.legacy_refresh_noop now loginResp s tok nr ht hn hf
  refine ⟨?_, ?_, ?_⟩
  · intro h0
    subst h0
    simp [LegacyAuth.send_request, hep, hre, ht, HttpResponse.ok, hok, hct,
      hjs, hsc]
  · intro e hne he
    simp [LegacyAuth.send_request, hep, hre, ht, HttpResponse.ok, hok, hct,
      hjs, hsc, hne, he]
  · intro hne hnone
    simp [LegacyAuth.send_request, hep, hre, ht, HttpResponse.ok, hok, hct,
      hjs, hsc, hne, hnone]

/-- Witness for C5 at the concrete StatusCode "5" environment (mapped to
ServiceUnavailableError in the modelled table). -/
theorem C5_witness :
    lookupStr API_RESPONSE_STATUS_CODE_MAPPING "5" = some .serviceUnavailable
    ∧ ((LegacyAuth.send_request respOkZero envStatus5 0 (4 + 1) 0
          legacyLoggedIn "get_dashboard_details" .jnull).outcome
        = .error .serviceUnavailable
      ∧ (LegacyAuth.send_request respOkZero envStatus5 0 (4 + 1) 0
          legacyLoggedIn "get_dashboard_details" .jnull).state.access_token
        = some (.jstr "legacy-tok")) :=
  ⟨rfl,
   (C5_amended_status_code_table respOkZero envStatus5 0 4 0 legacyLoggedIn
     "get_dashboard_details" .jnull ⟨"POST", "/GetDashboardDetails"⟩
     (.jstr "legacy-tok") 1000 "5" rfl rfl rfl (by decide) rfl rfl rfl
     rfl).2.1 .serviceUnavailable (by decide) rfl⟩

/-- An environment whose every response is a transport 503. -/
def env503 : Nat → HttpResponse := fun _ => resp503

/-- C6 counterexample: on a logged-in MSO authenticator a transport 503 does
not raise ServiceUnavailableError and does not clear the token: dispatch
raises UnknownEndpointError carrying status and text, and auth_data is left
exactly as it was. -/
theorem C6_counterexample :
    MSOB2CAuth.send_request fenvTrivial env503 0 0 msoLoggedIn
        "get_usage_details" .jnull
      = ⟨.error (.unknownEndpoint (.jarr [.jnum 503, .jstr "service unavailable"])),
         msoLoggedIn, [⟨"Bearer mso-tok"⟩]⟩
    ∧ (MSOB2CAuth.send_request fenvTrivial env503 0 0 msoLoggedIn
        "get_usage_details" .jnull).outcome ≠ .error .serviceUnavailable := by
  refine ⟨rfl, ?_⟩
  intro h
  have h1 : (Except.error (PyError.unknownEndpoint
      (.jarr [.jnum 503, .jstr "service unavailable"])) : Except PyError JValue)
      = .error .serviceUnavailable := h
  injection h1 with h2
  exact PyError.noConfusion h2

/-- C6 amended: on a transport 503 LegacyAuth raises ServiceUnavailableError,
clears the access token and performs no retry; MSOB2CAuth instead raises
UnknownEndpointError carrying the status and body text, leaves the token in
place, and likewise performs no retry (one request total in both cases). -/
theorem C6_amended_503_behavior
    (loginResp : HttpResponse) (env env2 : Nat → HttpResponse) (now now2 : Int)
    (fuel k k2 : Nat) (s : LegacyState) (s2 : MSOState) (fenv : FlowEnv)
    (ep ep2 : String) (body body2 : JValue) (em em2 : EndpointDescr)
    (tok tok2 : JValue) (fs : List (String × JValue)) (nr nr2 : Int)
    (hep : lookupStr LEGACY_API_ENDPOINTS ep = some em)
    (ht : s.access_token = some tok)
    (hn : s.next_refresh = some nr) (hf : now < nr)
    (h503 : (env k).status = 503)
    (hep2 : lookupStr AW_APP_ENDPOINTS ep2 = some em2)
    (ha2 : s2.auth_data = some (.jobj fs))
    (ht2 : lookupStr fs "access_token" = some tok2)
    (hn2 : s2.next_refresh = some nr2) (hf2 : now2 < nr2)
    (h503b : (env2 k2).status = 503) :
    ((LegacyAuth.send_request loginResp env now (fuel + 1) k s ep body).outcome
        = .error .serviceUnavailable
      ∧ (LegacyAuth.send_request loginResp env now (fuel + 1) k s ep
          body).state.access_token = none
      ∧ (LegacyAuth.send_request loginResp env now (fuel + 1) k s ep
          body).sent.length = 1)
    ∧ ((MSOB2CAuth.send_request fenv env2 k2 now2 s2 ep2 body2).outcome
        = .error (.unknownEndpoint (.jarr [.jnum 503, .jstr (env2 k2).text]))
      ∧ (MSOB2CAuth.send_request fenv env2 k2 now2 s2 ep2 body2).state.auth_data
        = s2.auth_data
      ∧ (MSOB2CAuth.send_request fenv env2 k2 now2 s2 ep2 body2).sent.length
        = 1) := by
  constructor
  · have hre := LegacyAuth.legacy_refresh_noop now loginResp s tok nr ht hn hf
    refine ⟨?_, ?_, ?_⟩ <;>
      simp [LegacyAuth.send_request, hep, hre, ht, HttpResponse.ok, h503]
  · have hcl := MSOB2CAuth.send_request_classify fenv env2 k2 now2 s2 ep2 body2
      em2 fs tok2 nr2 hep2 ha2 ht2 hn2 hf2
    refine ⟨?_, ?_, ?_⟩ <;> simp [hcl, HttpResponse.ok, h503b]

/-- Witness for C6 at concrete 503 responses against both logged-in
authenticators. -/
theorem C6_witness :
    (resp503.status = 503)
    ∧ (((LegacyAuth.send_request respOkZero env503 0 (4 + 1) 0 legacyLoggedIn
          "get_dashboard_details" .jnull).outcome = .error .serviceUnavailable
      ∧ (LegacyAuth.send_request respOkZero env503 0 (4 + 1) 0 legacyLoggedIn
          "get_dashboard_details" .jnull).state.access_token = none
      ∧ (LegacyAuth.send_request respOkZero env503 0 (4 + 1) 0 legacyLoggedIn
          "get_dashboard_details" .jnull).sent.length = 1)
    ∧ ((MSOB2CAuth.send_request fenvTrivial env503 0 0 msoLoggedIn
          "get_usage_details" .jnull).outcome
        = .error (.unknownEndpoint (.jarr [.jnum 503, .jstr "service unavailable"]))
      ∧ (MSOB2CAuth.send_request fenvTrivial env503 0 0 msoLoggedIn
          "get_usage_details" .jnull).state.auth_data = msoLoggedIn.auth_data
      ∧ (MSOB2CAuth.send_request fenvTrivial env503 0 0 msoLoggedIn
          "get_usage_details" .jnull).sent.length = 1)) :=
  ⟨rfl,
   C6_amended_503_behavior respOkZero env503 env503 0 0 4 0 0 legacyLoggedIn
     msoLoggedIn fenvTrivial "get_dashboard_details" "get_usage_details"
     .jnull .jnull ⟨"POST", "/GetDashboardDetails"⟩
     ⟨"GET", "/usages/ACCOUNT_ID"⟩ (.jstr "legacy-tok") (.jstr "mso-tok")
     [("access_token", .jstr "mso-tok"), ("refresh_token", .jstr "mso-rtok")]
     1000 1000 rfl rfl rfl (by decide) rfl rfl rfl rfl rfl (by decide) rfl⟩

/-- An MSO state holding a stale token whose refresh deadline has passed
(relative to clock value 10). -/
def msoStale : MSOState :=
  { auth_data := some (.jobj [("access_token", .jstr "old-tok")]),
    next_refresh := some 0, username := "u", password := "p",
    account_number := none, pkce_verifier := msoClassPkceVerifier,
    pkce_challenge := none, state_nonce := msoClassState, csrf_token := "" }

/-- C8 counterexample: headers are computed before ensure_fresh runs.  With a
passed deadline, the refresh inside this dispatch succeeds and replaces the
token by "new-tok", yet the issued request carries "Bearer old-tok" - the
pre-refresh token - contrary to the claim that the request following a refresh
carries the new token. -/
theorem C8_counterexample :
    (MSOB2CAuth.send_request (flowEnvSuccess "nonce-R" "new-tok" 500)
        envTrivial 0 10 msoStale "get_usage_details" .jnull).sent
      = [⟨"Bearer old-tok"⟩]
    ∧ MSOB2CAuth.access_token
        (MSOB2CAuth.send_request (flowEnvSuccess "nonce-R" "new-tok" 500)
          envTrivial 0 10 msoStale "get_usage_details" .jnull).state
      = .ok (some (.jstr "new-tok"))
    ∧ "Bearer old-tok" ≠ "Bearer new-tok" := ⟨rfl, rfl, by decide⟩

/-- C8 amended: the authentication headers of an MSO dispatch are computed
once at entry, from the state before ensure_fresh runs; whenever a request is
issued at all, it carries exactly that pre-refresh Authorization value, even
when the refresh replaced the token in between. -/
theorem C8_amended_headers_precomputed
    (fenv : FlowEnv) (env : Nat → HttpResponse) (k : Nat) (now : Int)
    (s s1 : MSOState) (ep : String) (body : JValue) (em : EndpointDescr)
    (h : String) (tok : JValue)
    (hep : lookupStr AW_APP_ENDPOINTS ep = some em)
    (hh : MSOB2CAuth.get_authenticated_headers s = .ok h)
    (hre : MSOB2CAuth.send_refresh_request fenv now s = (.ok (), s1))
    (ht1 : MSOB2CAuth.access_token s1 = .ok (some tok)) :
    (MSOB2CAuth.send_request fenv env k now s ep body).sent = [⟨h⟩] := by
  unfold MSOB2CAuth.send_request
  simp only [hep, hh, hre, ht1]
  repeat' split
  all_goals rfl

/-- Witness for C8 at the concrete stale-then-refreshed dispatch. -/
theorem C8_witness :
    MSOB2CAuth.get_authenticated_headers msoStale = .ok "Bearer old-tok"
    ∧ (MSOB2CAuth.send_request (flowEnvSuccess "nonce-R" "new-tok" 500)
        envTrivial 0 10 msoStale "get_usage_details" .jnull).sent
      = [⟨"Bearer old-tok"⟩] :=
  ⟨rfl,
   C8_amended_headers_precomputed (flowEnvSuccess "nonce-R" "new-tok" 500)
     envTrivial 0 10 msoStale
     (MSOB2CAuth.send_refresh_request (flowEnvSuccess "nonce-R" "new-tok" 500)
       10 msoStale).2
     "get_usage_details" .jnull ⟨"GET", "/usages/ACCOUNT_ID"⟩
     "Bearer old-tok" (.jstr "new-tok") rfl rfl rfl rfl⟩

/-- Witness for C10 at a concrete fresh instance and catalog endpoint. -/
theorem C10_witness :
    (MSOB2CAuth.mkState "user@example.com" "pw").auth_data = none
      ∧ lookupStr AW_APP_ENDPOINTS "get_usage_details"
          = some ⟨"GET", "/usages/ACCOUNT_ID"⟩
      ∧ (MSOB2CAuth.access_token (MSOB2CAuth.mkState "user@example.com" "pw")
            = .error .attributeError
        ∧ MSOB2CAuth.refresh_token (MSOB2CAuth.mkState "user@example.com" "pw")
            = .error .attributeError
        ∧ (MSOB2CAuth.send_request fenvTrivial envTrivial 0 0
            (MSOB2CAuth.mkState "user@example.com" "pw") "get_usage_details"
            .jnull).outcome = .error .attributeError
        ∧ (MSOB2CAuth.send_request fenvTrivial envTrivial 0 0
            (MSOB2CAuth.mkState "user@example.com" "pw") "get_usage_details"
            .jnull).sent = []
        ∧ (MSOB2CAuth.send_request fenvTrivial envTrivial 0 0
            (MSOB2CAuth.mkState "user@example.com" "pw") "get_usage_details"
            .jnull).outcome ≠ .error .expiredAccessToken) :=
  ⟨rfl, rfl,
   C10_mso_prelogin_attribute_error fenvTrivial envTrivial 0 0
     (MSOB2CAuth.mkState "user@example.com" "pw") "get_usage_details" .jnull
     ⟨"GET", "/usages/ACCOUNT_ID"⟩ rfl rfl⟩
